import Mathlib

/-!
Verification of the inhaler data-logger acquisition pipeline.

The development shallowly embeds the acquisition core of the repository:
`InhalerLogger.calculate_flow_rate` and `InhalerLogger.parse_data` from
`main.py`, the per-tick acquisition step `InhalerUI.update_plot` from
`main.py`, and the plotting projection it computes.  Python floats are
idealised as exact rationals (ℚ) for parsed fields and as exact reals (ℝ)
inside the flow-rate computation, where `math.sqrt` is `Real.sqrt`.
Python exceptions are explicit `Except` errors; the `try`/`except` wrapper
of `parse_data` maps every raised error to `None` (here `none`).
-/

/-- Characters on which Python's `str.split()` (no argument) splits:
the ASCII whitespace characters. -/
def isPySpace (c : Char) : Bool :=
  c = ' ' || c = '\t' || c = '\n' || c = '\r' || c = '\x0b' || c = '\x0c'

/-- Model of Python `str.strip()`: remove leading and trailing whitespace. -/
def pyStrip (cs : List Char) : List Char :=
  ((cs.dropWhile isPySpace).reverse.dropWhile isPySpace).reverse

/-- Worker for `pySplit`: accumulates the current token (reversed). -/
def pySplitAux : List Char → List Char → List (List Char)
  | [], acc => if acc = [] then [] else [acc.reverse]
  | c :: cs, acc =>
    if isPySpace c then
      if acc = [] then pySplitAux cs [] else acc.reverse :: pySplitAux cs []
    else pySplitAux cs (c :: acc)

/-- Model of Python `str.split()` with no argument: split on runs of
whitespace, discarding empty tokens. -/
def pySplit (cs : List Char) : List (List Char) :=
  pySplitAux cs []

/-- Numeric value of a digit string (callers check the digits). -/
def digitsVal (cs : List Char) : ℕ :=
  cs.foldl (fun n c => 10 * n + (c.toNat - 48)) 0

/-- All characters are ASCII digits. -/
def allDigits (cs : List Char) : Bool :=
  cs.all Char.isDigit

/-- Model of Python `int(token)` on a whitespace-free token: optional sign
followed by a nonempty run of ASCII digits.  (Underscore separators and
non-ASCII digits accepted by CPython are not modelled.)  `none` models the
`ValueError` raised on any other input. -/
def pyInt? (cs : List Char) : Option ℤ :=
  match cs with
  | '+' :: rest => if rest ≠ [] ∧ allDigits rest then some (digitsVal rest : ℤ) else none
  | '-' :: rest => if rest ≠ [] ∧ allDigits rest then some (-(digitsVal rest : ℤ)) else none
  | _ => if cs ≠ [] ∧ allDigits cs then some (digitsVal cs : ℤ) else none

/-- Value of the exponent part of a float literal (after `e`/`E`):
optional sign and a nonempty digit run, giving a power of ten. -/
def pyExpVal? : List Char → Option ℚ
  | '+' :: rest => if rest ≠ [] ∧ allDigits rest then some ((10 : ℚ) ^ digitsVal rest) else none
  | '-' :: rest => if rest ≠ [] ∧ allDigits rest then some (((10 : ℚ) ^ digitsVal rest)⁻¹) else none
  | cs => if cs ≠ [] ∧ allDigits cs then some ((10 : ℚ) ^ digitsVal cs) else none

/-- Unsigned part of Python `float(token)`: digits with an optional
decimal point and an optional exponent.  (`inf`/`nan` and underscore
separators are not modelled; no claim depends on them.) -/
def pyFloatBody? (cs : List Char) : Option ℚ :=
  match cs.dropWhile Char.isDigit with
  | [] =>
    if cs.takeWhile Char.isDigit = [] then none
    else some (digitsVal (cs.takeWhile Char.isDigit) : ℚ)
  | '.' :: r2 =>
    let ip := cs.takeWhile Char.isDigit
    let fp := r2.takeWhile Char.isDigit
    if ip = [] ∧ fp = [] then none
    else
      let m : ℚ := (digitsVal ip : ℚ) + (digitsVal fp : ℚ) / (10 : ℚ) ^ fp.length
      match r2.dropWhile Char.isDigit with
      | [] => some m
      | 'e' :: r4 => (pyExpVal? r4).map (fun e => m * e)
      | 'E' :: r4 => (pyExpVal? r4).map (fun e => m * e)
      | _ => none
  | 'e' :: r4 =>
    if cs.takeWhile Char.isDigit = [] then none
    else (pyExpVal? r4).map (fun e => (digitsVal (cs.takeWhile Char.isDigit) : ℚ) * e)
  | 'E' :: r4 =>
    if cs.takeWhile Char.isDigit = [] then none
    else (pyExpVal? r4).map (fun e => (digitsVal (cs.takeWhile Char.isDigit) : ℚ) * e)
  | _ => none

/-- Model of Python `float(token)` on a whitespace-free token.  `none`
models the `ValueError` raised on a non-numeric token. -/
def pyFloat? (cs : List Char) : Option ℚ :=
  match cs with
  | '+' :: rest => pyFloatBody? rest
  | '-' :: rest => (pyFloatBody? rest).map Neg.neg
  | _ => pyFloatBody? cs

/-- `map(int, tokens)` as forced by tuple unpacking: the first failing
conversion raises, modelled as `none`. -/
def pyMapInt : List (List Char) → Option (List ℤ)
  | [] => some []
  | t :: ts =>
    match pyInt? t, pyMapInt ts with
    | some v, some vs => some (v :: vs)
    | _, _ => none

/-- `map(float, tokens)` as forced by tuple unpacking. -/
def pyMapFloat : List (List Char) → Option (List ℚ)
  | [] => some []
  | t :: ts =>
    match pyFloat? t, pyMapFloat ts with
    | some v, some vs => some (v :: vs)
    | _, _ => none

/-- The Python exceptions that the modelled code can raise. -/
inductive PyError
  | valueError
  | zeroDivisionError
  | typeError
deriving DecidableEq

/-- Model of Python `round(x, 2)` on the idealised real value: the nearest
multiple of 1/100 (Mathlib's `round` breaks ties upward; CPython breaks
ties to even, but no value in this development lands on a tie). -/
noncomputable def pyRound2 (x : ℝ) : ℚ :=
  ((round (x * 100) : ℤ) : ℚ) / 100

/-- One decoded telemetry sample: the dictionary built by
`InhalerLogger.parse_data` (keys Year .. Flow Rate (L/min)). -/
structure Reading where
  year : ℤ
  month : ℤ
  day : ℤ
  hour : ℤ
  minute : ℤ
  second : ℤ
  temp : ℚ
  humidity : ℚ
  pressure : ℚ
  meas_time : ℚ
  pressure_drop : ℚ
  flow_rate : ℚ
deriving DecidableEq

/-- Constructor abbreviation for the parsed dictionary. -/
def mkReading (year month day hour minute second : ℤ)
    (temp humidity pressure meas_time pressure_drop flow_rate : ℚ) : Reading :=
  ⟨year, month, day, hour, minute, second, temp, humidity, pressure,
   meas_time, pressure_drop, flow_rate⟩

/-- Mutable state of `InhalerLogger` relevant to acquisition:
`self.data`, `self.first_measurement`, `self.inhaler_resistance`, and
whether `self.serial_connection` is a live handle (`True`) or `None`. -/
structure LoggerState where
  data : List Reading
  first_measurement : Option Reading
  inhaler_resistance : Option ℚ
  serial_connection : Bool
deriving DecidableEq

/-- The device catalog `INHALER_RESISTANCES` (active entries only);
66.8 = 334/5 and 62.8 = 314/5. -/
def INHALER_RESISTANCES : List (String × ℚ) :=
  [("NEXThaler", 334 / 5), ("Turbuhaler", 314 / 5)]

/-- `InhalerLogger.calculate_flow_rate` (main.py, lines 52-59).
`math.sqrt` of a negative argument raises `ValueError`; dividing a float
by `None` raises `TypeError`; dividing by `0.0` raises
`ZeroDivisionError`; otherwise the rounded flow rate is returned. -/
noncomputable def calculate_flow_rate (inhaler_resistance : Option ℚ)
    (pressure_drop_kpa : ℚ) : Except PyError ℚ :=
  if pressure_drop_kpa * 1000 < 0 then .error .valueError
  else
    match inhaler_resistance with
    | none => .error .typeError
    | some r =>
      if r = 0 then .error .zeroDivisionError
      else .ok (pyRound2 (Real.sqrt ((pressure_drop_kpa * 1000 : ℚ) : ℝ) / (r : ℝ) * 60))

/-- Distinguishes the two non-raising outcomes of the `try` body of
`parse_data`: the explicit malformed-count branch (which prints the
offending raw line and returns `None`) and a successful reading. -/
inductive ParseOutcome
  | malformed (raw : String)
  | reading (r : Reading)
deriving DecidableEq

/-- The `try` body of `InhalerLogger.parse_data` (main.py, lines 65-97):
split the stripped line, require exactly 11 tokens (else report the raw
line and return `None`), convert the first 6 tokens with `int` and the
last 5 with `float`, compute the flow rate, build the reading, and record
it as `first_measurement` if none is recorded yet (the parsed dictionary
is nonempty, hence always truthy, so the recorded value is sticky). -/
noncomputable def parse_data_core (s : LoggerState) (line : String) :
    Except PyError (ParseOutcome × LoggerState) :=
  if (pySplit (pyStrip line.data)).length ≠ 11 then .ok (.malformed line, s)
  else
    match pyMapInt ((pySplit (pyStrip line.data)).take 6),
        pyMapFloat ((pySplit (pyStrip line.data)).drop 6) with
    | some [year, month, day, hour, minute, second],
      some [temp, humidity, pressure, meas_time, pressure_drop] =>
      match calculate_flow_rate s.inhaler_resistance pressure_drop with
      | .error e => .error e
      | .ok flow_rate =>
        if s.first_measurement = none then
          .ok (.reading (mkReading year month day hour minute second temp humidity
                 pressure meas_time pressure_drop flow_rate),
               { s with first_measurement := some (mkReading year month day hour
                   minute second temp humidity pressure meas_time pressure_drop
                   flow_rate) })
        else
          .ok (.reading (mkReading year month day hour minute second temp humidity
                 pressure meas_time pressure_drop flow_rate), s)
    | _, _ => .error .valueError

/-- `InhalerLogger.parse_data` (main.py, lines 61-100): the whole body is
wrapped in `try`/`except Exception`, so every raised error is caught,
reported, and turned into `None` with the state as it was when the error
was raised (no mutation happens before a raise). -/
noncomputable def parse_data (s : LoggerState) (line : String) :
    Option Reading × LoggerState :=
  match parse_data_core s line with
  | .ok (.reading r, s') => (some r, s')
  | .ok (.malformed _, s') => (none, s')
  | .error _ => (none, s)

/-- What the serial channel offers on one tick of `update_plot`:
no buffered data, one decoded line, a `serial.SerialException`, or some
other exception (decode error, catalog lookup failure). -/
inductive SerialEvent
  | noData
  | line (raw : String)
  | fault
  | otherError
deriving DecidableEq

/-- Per-tick inputs external to the logger: the UI's `running` flag, the
resistance selected in the combo box (a catalog value), and the serial
event. -/
structure TickInput where
  running : Bool
  selection : ℚ
  event : SerialEvent
deriving DecidableEq

/-- Result of one tick: the new logger state, the two plotted sequences,
and whether the tick reached the `in_waiting`/`readline` calls on the
handle. -/
structure TickResult where
  state : LoggerState
  times : List ℚ
  flow_rates : List ℚ
  readAttempted : Bool

/-- `InhalerUI.update_plot` (main.py, lines 174-198), one tick: if the UI
is running and the handle is live, poll; on a buffered line set the active
resistance from the catalog selection, parse, and append a successful
reading; a `SerialException` sets `serial_connection = None`; any other
exception is swallowed.  The plot data is then recomputed from
`self.logger.data`. -/
noncomputable def update_plot (s : LoggerState) (inp : TickInput) : TickResult :=
  let s1 : LoggerState :=
    if inp.running && s.serial_connection then
      match inp.event with
      | .noData => s
      | .line raw =>
        match parse_data { s with inhaler_resistance := some inp.selection } raw with
        | (some r, s3) => { s3 with data := s3.data ++ [r] }
        | (none, s3) => s3
      | .fault => { s with serial_connection := false }
      | .otherError => s
    else s
  { state := s1
    times := s1.data.map (fun e => e.meas_time)
    flow_rates := s1.data.map (fun e => e.flow_rate)
    readAttempted := inp.running && s.serial_connection &&
      (match inp.event with | .noData => false | _ => true) }

/-- Iterated ticks of the acquisition loop. -/
noncomputable def runTicks : LoggerState → List TickInput → LoggerState
  | s, [] => s
  | s, i :: is => runTicks (update_plot s i).state is

/-- Whether any tick of the run reaches the handle's read calls. -/
noncomputable def anyRead : LoggerState → List TickInput → Bool
  | _, [] => false
  | s, i :: is => (update_plot s i).readAttempted || anyRead (update_plot s i).state is

/-- The (MeasurementTime, FlowRate) projection computed for plotting
(main.py, lines 193-194; guis.py, lines 69-70). -/
def projection (s : LoggerState) : List ℚ × List ℚ :=
  (s.data.map (fun e => e.meas_time), s.data.map (fun e => e.flow_rate))

/-- The full ordered store, `self.logger.data`. -/
def allReadings (s : LoggerState) : List Reading :=
  s.data

/-- Logger state right after `__init__`: empty store, no first
measurement, no resistance, and a handle iff the retries succeeded. -/
def initLogger (connected : Bool) : LoggerState :=
  { data := [], first_measurement := none, inhaler_resistance := none,
    serial_connection := connected }

/-- The spec's example telemetry line. -/
def goodLine : String := "2024 12 02 14 30 15 22.5 45.0 1013.0 3.5 2.0"

/-- The same line with a negative pressure drop in the last field. -/
def negLine : String := "2024 12 02 14 30 15 22.5 45.0 1013.0 3.5 -1.0"

/-- The spec's 9-token malformed example line. -/
def shortLine : String := "2024 12 02 14 30 15 22.5 45.0 1013.0"

/-- Fresh logger state with the NEXThaler resistance (66.8) selected. -/
def sNEXT : LoggerState :=
  { data := [], first_measurement := none, inhaler_resistance := some (334 / 5),
    serial_connection := true }

/-- The reading that parsing `goodLine` with resistance 66.8 produces. -/
noncomputable def rdGood : Reading :=
  mkReading 2024 12 2 14 30 15 (45 / 2) 45 1013 (7 / 2) 2
    (pyRound2 (Real.sqrt (((2 : ℚ) * 1000 : ℚ) : ℝ) / ((334 / 5 : ℚ) : ℝ) * 60))

/-- A concrete reading used to instantiate store lemmas. -/
def rd0 : Reading :=
  mkReading 2024 12 2 14 30 15 (45 / 2) 45 950 0 1 0

/-- A logger state that already holds one reading. -/
def sOne : LoggerState :=
  { data := [rd0], first_measurement := some rd0, inhaler_resistance := none,
    serial_connection := true }

/-- A tick input with the UI stopped and nothing buffered. -/
def inpNone : TickInput :=
  { running := false, selection := 334 / 5, event := .noData }

lemma calculate_ok (r pd : ℚ) (hr : r ≠ 0) (hpd : 0 ≤ pd) :
    calculate_flow_rate (some r) pd =
      .ok (pyRound2 (Real.sqrt ((pd * 1000 : ℚ) : ℝ) / (r : ℝ) * 60)) := by
  have h1 : ¬ (pd * 1000 < 0) := not_lt.mpr (mul_nonneg hpd (by norm_num))
  simp [calculate_flow_rate, h1, hr]

lemma calculate_err_neg (ρ : Option ℚ) (pd : ℚ) (hpd : pd < 0) :
    calculate_flow_rate ρ pd = .error .valueError := by
  have h1 : pd * 1000 < 0 := by nlinarith
  simp [calculate_flow_rate, h1]

lemma sqrt_2000_gt : (4472 / 100 : ℝ) < Real.sqrt 2000 :=
  (Real.lt_sqrt (by norm_num)).mpr (by norm_num)

lemma sqrt_2000_lt : Real.sqrt 2000 < 44722 / 1000 :=
  (Real.sqrt_lt' (by norm_num)).mpr (by norm_num)

lemma pyRound2_good :
    pyRound2 (Real.sqrt (((2 : ℚ) * 1000 : ℚ) : ℝ) / ((334 / 5 : ℚ) : ℝ) * 60) = 4017 / 100 := by
  have hc1 : (((2 : ℚ) * 1000 : ℚ) : ℝ) = 2000 := by norm_num
  have hc2 : ((334 / 5 : ℚ) : ℝ) = 334 / 5 := by norm_num
  rw [hc1, hc2]
  have h1 := sqrt_2000_gt
  have h2 := sqrt_2000_lt
  have hr : round (Real.sqrt 2000 / (334 / 5) * 60 * 100) = 4017 := by
    rw [round_eq]
    refine Int.floor_eq_iff.mpr ⟨?_, ?_⟩ <;> push_cast <;> linarith
  unfold pyRound2
  rw [hr]
  norm_num

lemma parse_data_core_eval (s : LoggerState) (line : String)
    (t0 t1 t2 t3 t4 t5 t6 t7 t8 t9 t10 : List Char)
    (y mo da ho mi se : ℤ) (te hu pr mt pd : ℚ)
    (hsplit : pySplit (pyStrip line.data) = [t0, t1, t2, t3, t4, t5, t6, t7, t8, t9, t10])
    (h0 : pyInt? t0 = some y) (h1 : pyInt? t1 = some mo) (h2 : pyInt? t2 = some da)
    (h3 : pyInt? t3 = some ho) (h4 : pyInt? t4 = some mi) (h5 : pyInt? t5 = some se)
    (h6 : pyFloat? t6 = some te) (h7 : pyFloat? t7 = some hu) (h8 : pyFloat? t8 = some pr)
    (h9 : pyFloat? t9 = some mt) (h10 : pyFloat? t10 = some pd) :
    parse_data_core s line =
      match calculate_flow_rate s.inhaler_resistance pd with
      | .error e => .error e
      | .ok flow_rate =>
        if s.first_measurement = none then
          .ok (.reading (mkReading y mo da ho mi se te hu pr mt pd flow_rate),
               { s with first_measurement := some (mkReading y mo da ho mi se te hu pr
                   mt pd flow_rate) })
        else .ok (.reading (mkReading y mo da ho mi se te hu pr mt pd flow_rate), s) := by
  have hlen : ¬ ((pySplit (pyStrip line.data)).length ≠ 11) := by rw [hsplit]; simp
  unfold parse_data_core
  rw [if_neg hlen, hsplit]
  have htake : List.take 6 [t0, t1, t2, t3, t4, t5, t6, t7, t8, t9, t10] =
      [t0, t1, t2, t3, t4, t5] := rfl
  have hdrop : List.drop 6 [t0, t1, t2, t3, t4, t5, t6, t7, t8, t9, t10] =
      [t6, t7, t8, t9, t10] := rfl
  rw [htake, hdrop]
  have hints : pyMapInt [t0, t1, t2, t3, t4, t5] = some [y, mo, da, ho, mi, se] := by
    simp [pyMapInt, h0, h1, h2, h3, h4, h5]
  have hfloats : pyMapFloat [t6, t7, t8, t9, t10] = some [te, hu, pr, mt, pd] := by
    simp [pyMapFloat, h6, h7, h8, h9, h10]
  rw [hints, hfloats]

lemma parse_data_core_eval_ok (s : LoggerState) (line : String)
    (t0 t1 t2 t3 t4 t5 t6 t7 t8 t9 t10 : List Char)
    (y mo da ho mi se : ℤ) (te hu pr mt pd : ℚ)
    (hsplit : pySplit (pyStrip line.data) = [t0, t1, t2, t3, t4, t5, t6, t7, t8, t9, t10])
    (h0 : pyInt? t0 = some y) (h1 : pyInt? t1 = some mo) (h2 : pyInt? t2 = some da)
    (h3 : pyInt? t3 = some ho) (h4 : pyInt? t4 = some mi) (h5 : pyInt? t5 = some se)
    (h6 : pyFloat? t6 = some te) (h7 : pyFloat? t7 = some hu) (h8 : pyFloat? t8 = some pr)
    (h9 : pyFloat? t9 = some mt) (h10 : pyFloat? t10 = some pd)
    (fr : ℚ) (hcalc : calculate_flow_rate s.inhaler_resistance pd = .ok fr) :
    parse_data_core s line =
      if s.first_measurement = none then
        .ok (.reading (mkReading y mo da ho mi se te hu pr mt pd fr),
             { s with first_measurement := some (mkReading y mo da ho mi se te hu pr
                 mt pd fr) })
      else .ok (.reading (mkReading y mo da ho mi se te hu pr mt pd fr), s) := by
  rw [parse_data_core_eval s line t0 t1 t2 t3 t4 t5 t6 t7 t8 t9 t10
    y mo da ho mi se te hu pr mt pd hsplit h0 h1 h2 h3 h4 h5 h6 h7 h8 h9 h10, hcalc]

lemma core_shapes (s : LoggerState) (line : String) :
    parse_data_core s line = .ok (.malformed line, s) ∨
    (∃ e, parse_data_core s line = .error e) ∨
    (∃ rd, (s.first_measurement = none ∧
        parse_data_core s line = .ok (.reading rd, { s with first_measurement := some rd })) ∨
      (s.first_measurement ≠ none ∧ parse_data_core s line = .ok (.reading rd, s))) := by
  unfold parse_data_core
  split
  · exact Or.inl rfl
  · split
    · split
      · exact Or.inr (Or.inl ⟨_, rfl⟩)
      · split
        · next h => exact Or.inr (Or.inr ⟨_, Or.inl ⟨h, rfl⟩⟩)
        · next h => exact Or.inr (Or.inr ⟨_, Or.inr ⟨h, rfl⟩⟩)
    · exact Or.inr (Or.inl ⟨_, rfl⟩)

lemma parse_data_shapes (s : LoggerState) (line : String) :
    parse_data s line = (none, s) ∨
    (∃ rd, parse_data s line = (some rd, { s with first_measurement := some rd }) ∧
      s.first_measurement = none) ∨
    (∃ rd, parse_data s line = (some rd, s) ∧ s.first_measurement ≠ none) := by
  rcases core_shapes s line with h | ⟨e, h⟩ | ⟨rd, ⟨hn, h⟩ | ⟨hn, h⟩⟩
  · exact Or.inl (by unfold parse_data; rw [h])
  · exact Or.inl (by unfold parse_data; rw [h])
  · exact Or.inr (Or.inl ⟨rd, by unfold parse_data; rw [h], hn⟩)
  · exact Or.inr (Or.inr ⟨rd, by unfold parse_data; rw [h], hn⟩)

lemma parse_data_malformed_aux (s : LoggerState) (line : String)
    (h : (pySplit (pyStrip line.data)).length ≠ 11) :
    parse_data_core s line = .ok (.malformed line, s) ∧ parse_data s line = (none, s) := by
  have hc : parse_data_core s line = .ok (.malformed line, s) := by
    unfold parse_data_core; rw [if_pos h]
  exact ⟨hc, by unfold parse_data; rw [hc]⟩

lemma parse_neg_pd_aux (s : LoggerState) (line : String)
    (t0 t1 t2 t3 t4 t5 t6 t7 t8 t9 t10 : List Char)
    (y mo da ho mi se : ℤ) (te hu pr mt pd : ℚ)
    (hsplit : pySplit (pyStrip line.data) = [t0, t1, t2, t3, t4, t5, t6, t7, t8, t9, t10])
    (h0 : pyInt? t0 = some y) (h1 : pyInt? t1 = some mo) (h2 : pyInt? t2 = some da)
    (h3 : pyInt? t3 = some ho) (h4 : pyInt? t4 = some mi) (h5 : pyInt? t5 = some se)
    (h6 : pyFloat? t6 = some te) (h7 : pyFloat? t7 = some hu) (h8 : pyFloat? t8 = some pr)
    (h9 : pyFloat? t9 = some mt) (h10 : pyFloat? t10 = some pd) (hpd : pd < 0) :
    parse_data s line = (none, s) := by
  have hc : parse_data_core s line = .error .valueError := by
    rw [parse_data_core_eval s line t0 t1 t2 t3 t4 t5 t6 t7 t8 t9 t10 y mo da ho mi se
        te hu pr mt pd hsplit h0 h1 h2 h3 h4 h5 h6 h7 h8 h9 h10,
      calculate_err_neg _ _ hpd]
  unfold parse_data; rw [hc]

lemma update_plot_skip (s : LoggerState) (inp : TickInput)
    (hg : (inp.running && s.serial_connection) = false) :
    (update_plot s inp).state = s := by
  simp [update_plot, hg]

lemma update_plot_noData (s : LoggerState) (run : Bool) (sel : ℚ)
    (hg : (run && s.serial_connection) = true) :
    (update_plot s ⟨run, sel, .noData⟩).state = s := by
  simp [update_plot, hg]

lemma update_plot_other (s : LoggerState) (run : Bool) (sel : ℚ)
    (hg : (run && s.serial_connection) = true) :
    (update_plot s ⟨run, sel, .otherError⟩).state = s := by
  simp [update_plot, hg]

lemma update_plot_fault_state (s : LoggerState) (run : Bool) (sel : ℚ)
    (hg : (run && s.serial_connection) = true) :
    (update_plot s ⟨run, sel, .fault⟩).state = { s with serial_connection := false } := by
  simp [update_plot, hg]

lemma update_plot_line (s : LoggerState) (run : Bool) (sel : ℚ) (raw : String)
    (hg : (run && s.serial_connection) = true) :
    (update_plot s ⟨run, sel, .line raw⟩).state =
      (match parse_data { s with inhaler_resistance := some sel } raw with
       | (some r, s3) => { s3 with data := s3.data ++ [r] }
       | (none, s3) => s3) := by
  simp [update_plot, hg]

lemma update_plot_disconnected (s : LoggerState) (inp : TickInput)
    (h : s.serial_connection = false) :
    (update_plot s inp).state = s ∧ (update_plot s inp).readAttempted = false := by
  constructor
  · exact update_plot_skip s inp (by rw [h, Bool.and_false])
  · simp [update_plot, h]

lemma update_plot_first_inv (s : LoggerState) (inp : TickInput)
    (h : s.first_measurement = s.data.head?) :
    (update_plot s inp).state.first_measurement = (update_plot s inp).state.data.head? := by
  obtain ⟨run, sel, ev⟩ := inp
  cases hg : (run && s.serial_connection) with
  | false => rw [update_plot_skip _ _ hg]; exact h
  | true =>
    cases ev with
    | noData => rw [update_plot_noData _ _ _ hg]; exact h
    | otherError => rw [update_plot_other _ _ _ hg]; exact h
    | fault => rw [update_plot_fault_state _ _ _ hg]; exact h
    | line raw =>
      rw [update_plot_line _ _ _ _ hg]
      rcases parse_data_shapes { s with inhaler_resistance := some sel } raw with
        hp | ⟨rd, hp, hn⟩ | ⟨rd, hp, hn⟩
      · rw [hp]; exact h
      · rw [hp]
        dsimp only
        have hh : s.data.head? = none := by rw [← h]; exact hn
        have hnil : s.data = [] := by
          cases hd : s.data with
          | nil => rfl
          | cons a t => rw [hd] at hh; exact absurd hh (by simp)
        simp [hnil]
      · rw [hp]
        dsimp only
        rw [h]
        cases hd : s.data with
        | nil => exact absurd (h.trans (by rw [hd]; rfl)) hn
        | cons a t => rfl

lemma runTicks_first_inv (inputs : List TickInput) : ∀ s : LoggerState,
    s.first_measurement = s.data.head? →
    (runTicks s inputs).first_measurement = (runTicks s inputs).data.head? := by
  induction inputs with
  | nil => intro s h; exact h
  | cons i is ih =>
    intro s h
    simp only [runTicks]
    exact ih _ (update_plot_first_inv s i h)

lemma update_plot_head_pres (s : LoggerState) (inp : TickInput) (h : s.data ≠ []) :
    (update_plot s inp).state.data.head? = s.data.head? := by
  obtain ⟨run, sel, ev⟩ := inp
  cases hg : (run && s.serial_connection) with
  | false => rw [update_plot_skip _ _ hg]
  | true =>
    cases ev with
    | noData => rw [update_plot_noData _ _ _ hg]
    | otherError => rw [update_plot_other _ _ _ hg]
    | fault => rw [update_plot_fault_state _ _ _ hg]
    | line raw =>
      rw [update_plot_line _ _ _ _ hg]
      rcases parse_data_shapes { s with inhaler_resistance := some sel } raw with
        hp | ⟨rd, hp, hn⟩ | ⟨rd, hp, hn⟩
      · rw [hp]
      · rw [hp]
        cases hd : s.data with
        | nil => exact absurd hd h
        | cons a t => simp [hd]
      · rw [hp]
        cases hd : s.data with
        | nil => exact absurd hd h
        | cons a t => simp [hd]

lemma disconnected_run (inputs : List TickInput) : ∀ s : LoggerState,
    s.serial_connection = false →
    anyRead s inputs = false ∧ (runTicks s inputs).serial_connection = false := by
  induction inputs with
  | nil => intro s h; exact ⟨rfl, h⟩
  | cons i is ih =>
    intro s h
    have hd := update_plot_disconnected s i h
    constructor
    · simp only [anyRead, hd.2, Bool.false_or, hd.1]
      exact (ih s h).1
    · simp only [runTicks, hd.1]
      exact (ih s h).2

/-- Claim C2: for every raw line whose whitespace split does not yield exactly
11 tokens, parsing fails on the malformed-line branch (the non-raising branch
that reports the offending raw line and yields no Reading), and a tick that
read that line leaves the time-series store (`data` and `first_measurement`)
unchanged. -/
theorem parse_malformed (s : LoggerState) (line : String)
    (h : (pySplit (pyStrip line.data)).length ≠ 11) :
    parse_data_core s line = .ok (.malformed line, s) ∧
    parse_data s line = (none, s) ∧
    ∀ (run : Bool) (sel : ℚ),
      (update_plot s ⟨run, sel, SerialEvent.line line⟩).state.data = s.data ∧
      (update_plot s ⟨run, sel, SerialEvent.line line⟩).state.first_measurement =
        s.first_measurement := by
  obtain ⟨hc, hp⟩ := parse_data_malformed_aux s line h
  refine ⟨hc, hp, ?_⟩
  intro run sel
  cases hg : (run && s.serial_connection) with
  | false => rw [update_plot_skip _ _ hg]; exact ⟨rfl, rfl⟩
  | true =>
    rw [update_plot_line _ _ _ _ hg,
      (parse_data_malformed_aux { s with inhaler_resistance := some sel } line h).2]
    exact ⟨rfl, rfl⟩

/-- Witness for C2 at the spec's 9-token example line. -/
theorem parse_malformed_witness :
    (pySplit (pyStrip shortLine.data)).length ≠ 11 ∧
    parse_data sNEXT shortLine = (none, sNEXT) :=
  ⟨by decide, (parse_malformed sNEXT shortLine (by decide)).2.1⟩

/-- Claim C3: starting from a fresh logger, after any sequence of ticks the
stored first measurement equals the head of the append-only store, i.e. the
first Reading ever successfully appended; and one further tick never changes
the head of a nonempty store, so the first reading is unchanged by all
subsequent appends. -/
theorem firstReading_sticky :
    (∀ (c : Bool) (inputs : List TickInput),
        (runTicks (initLogger c) inputs).first_measurement =
          (runTicks (initLogger c) inputs).data.head?) ∧
    (∀ (s : LoggerState) (inp : TickInput), s.data ≠ [] →
        (update_plot s inp).state.data.head? = s.data.head?) := by
  constructor
  · intro c inputs
    exact runTicks_first_inv inputs (initLogger c) rfl
  · exact update_plot_head_pres

/-- Witness for C3 at a one-element store and a concrete tick. -/
theorem firstReading_sticky_witness :
    sOne.data ≠ [] ∧ (update_plot sOne inpNone).state.data.head? = sOne.data.head? :=
  ⟨by decide, firstReading_sticky.2 sOne inpNone (by decide)⟩

/-- Claim C8: a transport fault during a tick invalidates the handle
(`serial_connection` becomes `None`), and from any state with an invalid
handle no subsequent sequence of ticks ever reaches the handle's read calls
or revives the handle: the faulted state is terminal per handle, since the
loop contains no re-open. -/
theorem fault_terminal :
    (∀ (s : LoggerState) (run : Bool) (sel : ℚ), (run && s.serial_connection) = true →
        (update_plot s ⟨run, sel, SerialEvent.fault⟩).state.serial_connection = false) ∧
    (∀ (s : LoggerState) (inputs : List TickInput), s.serial_connection = false →
        anyRead s inputs = false ∧ (runTicks s inputs).serial_connection = false) := by
  constructor
  · intro s run sel hg; rw [update_plot_fault_state _ _ _ hg]
  · intro s inputs h; exact disconnected_run inputs s h

/-- Witness for C8: a fault on a live handle invalidates it, and a
disconnected logger never reads. -/
theorem fault_terminal_witness :
    ((true && (initLogger true).serial_connection) = true ∧
      (update_plot (initLogger true) ⟨true, 334 / 5, SerialEvent.fault⟩).state.serial_connection
        = false) ∧
    ((initLogger false).serial_connection = false ∧
      anyRead (initLogger false) [⟨true, 334 / 5, SerialEvent.line goodLine⟩] = false) :=
  ⟨⟨rfl, fault_terminal.1 (initLogger true) true (334 / 5) rfl⟩,
   ⟨rfl, (fault_terminal.2 (initLogger false) [⟨true, 334 / 5, SerialEvent.line goodLine⟩] rfl).1⟩⟩

/-- Claim C9: the plotting projection returns two sequences of the same
length as the store, index-aligned with the store in insertion order, and
the sequences a tick hands to the renderer are exactly this projection of
the tick's resulting state; the projection is a pure function of the store,
so it mutates nothing and repeated calls agree. -/
theorem projection_aligned (s : LoggerState) (i : ℕ) :
    (projection s).1.length = (allReadings s).length ∧
    (projection s).2.length = (allReadings s).length ∧
    (projection s).1[i]? = ((allReadings s)[i]?).map (fun e => e.meas_time) ∧
    (projection s).2[i]? = ((allReadings s)[i]?).map (fun e => e.flow_rate) ∧
    ∀ inp : TickInput,
      (update_plot s inp).times = (projection (update_plot s inp).state).1 ∧
      (update_plot s inp).flow_rates = (projection (update_plot s inp).state).2 := by
  refine ⟨by simp [projection, allReadings], by simp [projection, allReadings],
    by simp [projection, allReadings], by simp [projection, allReadings], ?_⟩
  intro inp
  exact ⟨rfl, rfl⟩

/-- Claim C10: the public parser is total: on every input string and state it
returns either a Reading or nothing, and every error raised inside the body
(modelled by the `Except` core) is caught and mapped to the no-Reading
result, never propagated to the caller. -/
theorem parse_total (s : LoggerState) (line : String) :
    (∃ e, parse_data_core s line = Except.error e ∧ parse_data s line = (none, s)) ∨
    (parse_data_core s line = Except.ok (ParseOutcome.malformed line, s) ∧
      parse_data s line = (none, s)) ∨
    (∃ rd s', parse_data_core s line = Except.ok (ParseOutcome.reading rd, s') ∧
      parse_data s line = (some rd, s')) := by
  rcases core_shapes s line with h | ⟨e, h⟩ | ⟨rd, ⟨hn, h⟩ | ⟨hn, h⟩⟩
  · exact Or.inr (Or.inl ⟨h, by unfold parse_data; rw [h]⟩)
  · exact Or.inl ⟨e, h, by unfold parse_data; rw [h]⟩
  · exact Or.inr (Or.inr ⟨rd, _, h, by unfold parse_data; rw [h]⟩)
  · exact Or.inr (Or.inr ⟨rd, _, h, by unfold parse_data; rw [h]⟩)

attribute [local semireducible] Rat.add Rat.mul Rat.inv Rat.sub Rat.ofScientific in
/-- Claim C1 (counterexample): the well-formed line with pressure-drop token
-1.0 splits into 11 tokens whose first 6 parse as integers and last 5 as
floats, a resistance is selected, yet parse fails (returns no Reading):
`math.sqrt` raises on the negative pressure drop, refuting the claim that
every such line parses successfully. -/
theorem parse_wellformed_neg_pd_fails :
    (pySplit (pyStrip negLine.data)).length = 11 ∧
    pyMapInt ((pySplit (pyStrip negLine.data)).take 6) = some [2024, 12, 2, 14, 30, 15] ∧
    pyMapFloat ((pySplit (pyStrip negLine.data)).drop 6) =
      some [45 / 2, 45, 1013, 7 / 2, -1] ∧
    sNEXT.inhaler_resistance = some (334 / 5) ∧
    parse_data sNEXT negLine = (none, sNEXT) :=
  ⟨by decide, by decide, by decide, rfl, by rfl⟩

/-- Claim C1 (amended): for every raw line splitting into exactly 11 tokens
whose first 6 parse as integers and last 5 as floats, with a selected
positive resistance and a nonnegative pressure-drop token, parse succeeds
and the Reading's FlowRate equals round(sqrt(pressureDrop*1000)/resistance*60, 2)
exactly; a negative pressure drop instead makes the parse fail. -/
theorem parse_wellformed_succeeds (s : LoggerState) (line : String)
    (t0 t1 t2 t3 t4 t5 t6 t7 t8 t9 t10 : List Char)
    (y mo da ho mi se : ℤ) (te hu pr mt pd r : ℚ)
    (hsplit : pySplit (pyStrip line.data) = [t0, t1, t2, t3, t4, t5, t6, t7, t8, t9, t10])
    (h0 : pyInt? t0 = some y) (h1 : pyInt? t1 = some mo) (h2 : pyInt? t2 = some da)
    (h3 : pyInt? t3 = some ho) (h4 : pyInt? t4 = some mi) (h5 : pyInt? t5 = some se)
    (h6 : pyFloat? t6 = some te) (h7 : pyFloat? t7 = some hu) (h8 : pyFloat? t8 = some pr)
    (h9 : pyFloat? t9 = some mt) (h10 : pyFloat? t10 = some pd)
    (hres : s.inhaler_resistance = some r) (hr : 0 < r) (hpd : 0 ≤ pd) :
    ∃ rd s', parse_data s line = (some rd, s') ∧
      rd.flow_rate = pyRound2 (Real.sqrt ((pd * 1000 : ℚ) : ℝ) / (r : ℝ) * 60) ∧
      rd.pressure_drop = pd ∧ rd.meas_time = mt := by
  have hcalc : calculate_flow_rate s.inhaler_resistance pd =
      .ok (pyRound2 (Real.sqrt ((pd * 1000 : ℚ) : ℝ) / (r : ℝ) * 60)) := by
    rw [hres]; exact calculate_ok r pd (ne_of_gt hr) hpd
  have hc := parse_data_core_eval_ok s line t0 t1 t2 t3 t4 t5 t6 t7 t8 t9 t10
    y mo da ho mi se te hu pr mt pd hsplit h0 h1 h2 h3 h4 h5 h6 h7 h8 h9 h10 _ hcalc
  by_cases hf : s.first_measurement = none
  · rw [if_pos hf] at hc
    exact ⟨_, _, by unfold parse_data; rw [hc], rfl, rfl, rfl⟩
  · rw [if_neg hf] at hc
    exact ⟨_, _, by unfold parse_data; rw [hc], rfl, rfl, rfl⟩

attribute [local semireducible] Rat.add Rat.mul Rat.inv Rat.sub Rat.ofScientific in
/-- Witness for the amended C1 at the spec's example line with the NEXThaler
resistance. -/
theorem parse_wellformed_succeeds_witness :
    pySplit (pyStrip goodLine.data) =
      [['2', '0', '2', '4'], ['1', '2'], ['0', '2'], ['1', '4'], ['3', '0'], ['1', '5'],
       ['2', '2', '.', '5'], ['4', '5', '.', '0'], ['1', '0', '1', '3', '.', '0'],
       ['3', '.', '5'], ['2', '.', '0']] ∧
    (0 : ℚ) < 334 / 5 ∧ (0 : ℚ) ≤ 2 ∧
    ∃ rd s', parse_data sNEXT goodLine = (some rd, s') ∧
      rd.flow_rate = pyRound2 (Real.sqrt (((2 : ℚ) * 1000 : ℚ) : ℝ) / ((334 / 5 : ℚ) : ℝ) * 60) ∧
      rd.pressure_drop = (2 : ℚ) ∧ rd.meas_time = (7 / 2 : ℚ) :=
  ⟨by decide, by norm_num, by norm_num,
    parse_wellformed_succeeds sNEXT goodLine
      ['2', '0', '2', '4'] ['1', '2'] ['0', '2'] ['1', '4'] ['3', '0'] ['1', '5']
      ['2', '2', '.', '5'] ['4', '5', '.', '0'] ['1', '0', '1', '3', '.', '0']
      ['3', '.', '5'] ['2', '.', '0']
      2024 12 2 14 30 15 (45 / 2) 45 1013 (7 / 2) 2 (334 / 5)
      (by decide) (by decide) (by decide) (by decide) (by decide) (by decide)
      (by decide) (by decide) (by decide) (by decide) (by decide) (by decide)
      rfl (by norm_num) (by norm_num)⟩

/-- Claim C4 (counterexample): with the negative resistance -66.8 and
pressure drop 2 kPa, the conversion does not fail at all: it returns a
numeric flow rate, refuting the claim that zero-or-negative resistance
fails with an InvalidResistance error. -/
theorem calc_negative_resistance_ok :
    ∃ q, calculate_flow_rate (some (-(334 / 5))) 2 = Except.ok q :=
  ⟨_, calculate_ok (-(334 / 5)) 2 (by norm_num) (by norm_num)⟩

/-- Claim C4 (amended): only a zero resistance makes the conversion fail
(a ZeroDivisionError, not a dedicated InvalidResistance error); a negative
resistance is accepted and yields a numeric nonpositive flow rate. -/
theorem calc_resistance_errors (pd : ℚ) (hpd : 0 ≤ pd) (r : ℚ) (hr : r < 0) :
    calculate_flow_rate (some 0) pd = Except.error PyError.zeroDivisionError ∧
    ∃ q, calculate_flow_rate (some r) pd = Except.ok q ∧ q ≤ 0 := by
  constructor
  · have h1 : ¬ (pd * 1000 < 0) := not_lt.mpr (mul_nonneg hpd (by norm_num))
    simp [calculate_flow_rate, h1]
  · refine ⟨_, calculate_ok r pd (ne_of_lt hr) hpd, ?_⟩
    have hs : (0 : ℝ) ≤ Real.sqrt ((pd * 1000 : ℚ) : ℝ) := Real.sqrt_nonneg _
    have hrneg : ((r : ℚ) : ℝ) < 0 := by exact_mod_cast hr
    have hdiv : Real.sqrt ((pd * 1000 : ℚ) : ℝ) / (r : ℝ) ≤ 0 :=
      div_nonpos_iff.mpr (Or.inl ⟨hs, le_of_lt hrneg⟩)
    have hx : Real.sqrt ((pd * 1000 : ℚ) : ℝ) / (r : ℝ) * 60 * 100 ≤ 0 := by linarith
    have hround : round (Real.sqrt ((pd * 1000 : ℚ) : ℝ) / (r : ℝ) * 60 * 100) ≤ 0 := by
      rw [round_eq]
      have h12 : Real.sqrt ((pd * 1000 : ℚ) : ℝ) / (r : ℝ) * 60 * 100 + 1 / 2 ≤ (1 / 2 : ℝ) := by
        linarith
      calc ⌊Real.sqrt ((pd * 1000 : ℚ) : ℝ) / (r : ℝ) * 60 * 100 + 1 / 2⌋
          ≤ ⌊(1 / 2 : ℝ)⌋ := Int.floor_le_floor h12
        _ = 0 := by rw [Int.floor_eq_iff]; norm_num
    unfold pyRound2
    have hcast : ((round (Real.sqrt ((pd * 1000 : ℚ) : ℝ) / (r : ℝ) * 60 * 100) : ℤ) : ℚ) ≤ 0 := by
      exact_mod_cast hround
    linarith

/-- Witness for the amended C4 at pressure drop 2 kPa and resistance -66.8. -/
theorem calc_resistance_errors_witness :
    (0 : ℚ) ≤ 2 ∧ (-(334 / 5) : ℚ) < 0 ∧
    (calculate_flow_rate (some 0) 2 = Except.error PyError.zeroDivisionError ∧
      ∃ q, calculate_flow_rate (some (-(334 / 5))) 2 = Except.ok q ∧ q ≤ 0) :=
  ⟨by norm_num, by norm_num, calc_resistance_errors 2 (by norm_num) (-(334 / 5)) (by norm_num)⟩

/-- Claim C5: for a well-formed 11-token line whose pressure-drop token is
negative, the conversion fails with the `math.sqrt` domain error (a
ValueError, the code's realisation of InvalidPressureDrop) rather than
returning a NaN, the parse produces no Reading and leaves the state
unchanged, and a tick that read that line appends nothing to the store. -/
theorem neg_pressure_drop_no_reading (s : LoggerState) (line : String)
    (t0 t1 t2 t3 t4 t5 t6 t7 t8 t9 t10 : List Char)
    (y mo da ho mi se : ℤ) (te hu pr mt pd : ℚ)
    (hsplit : pySplit (pyStrip line.data) = [t0, t1, t2, t3, t4, t5, t6, t7, t8, t9, t10])
    (h0 : pyInt? t0 = some y) (h1 : pyInt? t1 = some mo) (h2 : pyInt? t2 = some da)
    (h3 : pyInt? t3 = some ho) (h4 : pyInt? t4 = some mi) (h5 : pyInt? t5 = some se)
    (h6 : pyFloat? t6 = some te) (h7 : pyFloat? t7 = some hu) (h8 : pyFloat? t8 = some pr)
    (h9 : pyFloat? t9 = some mt) (h10 : pyFloat? t10 = some pd) (hpd : pd < 0) :
    calculate_flow_rate s.inhaler_resistance pd = Except.error PyError.valueError ∧
    parse_data s line = (none, s) ∧
    ∀ (run : Bool) (sel : ℚ),
      (update_plot s ⟨run, sel, SerialEvent.line line⟩).state.data = s.data ∧
      (update_plot s ⟨run, sel, SerialEvent.line line⟩).state.first_measurement =
        s.first_measurement := by
  refine ⟨calculate_err_neg _ _ hpd,
    parse_neg_pd_aux s line t0 t1 t2 t3 t4 t5 t6 t7 t8 t9 t10 y mo da ho mi se
      te hu pr mt pd hsplit h0 h1 h2 h3 h4 h5 h6 h7 h8 h9 h10 hpd, ?_⟩
  intro run sel
  cases hg : (run && s.serial_connection) with
  | false => rw [update_plot_skip _ _ hg]; exact ⟨rfl, rfl⟩
  | true =>
    rw [update_plot_line _ _ _ _ hg,
      parse_neg_pd_aux { s with inhaler_resistance := some sel } line
        t0 t1 t2 t3 t4 t5 t6 t7 t8 t9 t10 y mo da ho mi se te hu pr mt pd
        hsplit h0 h1 h2 h3 h4 h5 h6 h7 h8 h9 h10 hpd]
    exact ⟨rfl, rfl⟩

attribute [local semireducible] Rat.add Rat.mul Rat.inv Rat.sub Rat.ofScientific in
/-- Witness for C5 at the example line with pressure drop -1.0. -/
theorem neg_pressure_drop_no_reading_witness :
    (-1 : ℚ) < 0 ∧
    (calculate_flow_rate sNEXT.inhaler_resistance (-1) = Except.error PyError.valueError ∧
      parse_data sNEXT negLine = (none, sNEXT) ∧
      ∀ (run : Bool) (sel : ℚ),
        (update_plot sNEXT ⟨run, sel, SerialEvent.line negLine⟩).state.data = sNEXT.data ∧
        (update_plot sNEXT ⟨run, sel, SerialEvent.line negLine⟩).state.first_measurement =
          sNEXT.first_measurement) :=
  ⟨by norm_num,
    neg_pressure_drop_no_reading sNEXT negLine
      ['2', '0', '2', '4'] ['1', '2'] ['0', '2'] ['1', '4'] ['3', '0'] ['1', '5']
      ['2', '2', '.', '5'] ['4', '5', '.', '0'] ['1', '0', '1', '3', '.', '0']
      ['3', '.', '5'] ['-', '1', '.', '0']
      2024 12 2 14 30 15 (45 / 2) 45 1013 (7 / 2) (-1)
      (by decide) (by decide) (by decide) (by decide) (by decide) (by decide)
      (by decide) (by decide) (by decide) (by decide) (by decide) (by decide)
      (by norm_num)⟩

attribute [local semireducible] Rat.add Rat.mul Rat.inv Rat.sub Rat.ofScientific in
/-- Claim C6 (counterexample): parsing the spec's example line with
resistance 66.8 yields a Reading, but its FlowRate is not the claimed
40.18 L/min: sqrt(2000)/66.8*60 is about 40.1689, which rounds to 40.17. -/
theorem example_line_flowrate_cex :
    ∃ rd, (parse_data sNEXT goodLine).1 = some rd ∧ rd.flow_rate ≠ 4018 / 100 := by
  refine ⟨rdGood, by rfl, ?_⟩
  have h : rdGood.flow_rate = 4017 / 100 := pyRound2_good
  rw [h]
  norm_num

attribute [local semireducible] Rat.add Rat.mul Rat.inv Rat.sub Rat.ofScientific in
/-- Claim C6 (amended): parsing the line
`2024 12 02 14 30 15 22.5 45.0 1013.0 3.5 2.0` with resistance 66.8 yields a
Reading whose FlowRate equals 40.17 L/min, i.e.
round(sqrt(2.0*1000)/66.8*60, 2) = 40.17. -/
theorem example_line_flowrate :
    ∃ rd, (parse_data sNEXT goodLine).1 = some rd ∧ rd.flow_rate = 4017 / 100 :=
  ⟨rdGood, by rfl, pyRound2_good⟩

attribute [local semireducible] Rat.add Rat.mul Rat.inv Rat.sub Rat.ofScientific in
/-- Claim C7 (counterexample): the parser does mutate state: parsing a
well-formed line in a state with no recorded first measurement sets
`first_measurement` to the produced Reading, refuting the claim that
first-measurement capture is left to the caller. -/
theorem parse_mutates_first_cex :
    sNEXT.first_measurement = none ∧
    (parse_data sNEXT goodLine).2.first_measurement = some rdGood :=
  ⟨rfl, by rfl⟩

/-- Claim C7 (amended): the parser's side effect is exactly the
first-measurement capture: a failed parse leaves the state unchanged, and a
successful parse records the Reading as `first_measurement` when none is
recorded yet and changes nothing otherwise. -/
theorem parse_side_effect_frame (s : LoggerState) (line : String) :
    ((parse_data s line).1 = none → (parse_data s line).2 = s) ∧
    (∀ rd, (parse_data s line).1 = some rd →
      (parse_data s line).2 =
        (if s.first_measurement = none then { s with first_measurement := some rd }
         else s)) := by
  rcases parse_data_shapes s line with hp | ⟨rd, hp, hn⟩ | ⟨rd, hp, hn⟩
  · rw [hp]
    exact ⟨fun _ => rfl, fun rd2 h => by simp at h⟩
  · rw [hp]
    refine ⟨fun h => by simp at h, fun rd2 h => ?_⟩
    have hrd : rd2 = rd := by simpa using h.symm
    subst hrd
    rw [if_pos hn]
  · rw [hp]
    refine ⟨fun h => by simp at h, fun rd2 h => ?_⟩
    have hrd : rd2 = rd := by simpa using h.symm
    subst hrd
    rw [if_neg hn]

attribute [local semireducible] Rat.add Rat.mul Rat.inv Rat.sub Rat.ofScientific in
/-- Witness for the amended C7 at the example line from a state with no
recorded first measurement. -/
theorem parse_side_effect_frame_witness :
    (parse_data sNEXT goodLine).1 = some rdGood ∧
    (parse_data sNEXT goodLine).2 =
      (if sNEXT.first_measurement = none then { sNEXT with first_measurement := some rdGood }
       else sNEXT) :=
  ⟨by rfl, (parse_side_effect_frame sNEXT goodLine).2 rdGood (by rfl)⟩
